import Mathlib

/-!
Shallow embedding of `claude_menubar.py`.

This file models the credential-lifecycle and usage-polling core of the
menu-bar monitor:

* `read_keychain_token` — the Token Service (expiry detection, refresh
  exchange, keychain write-back);
* `fetch_usage` — the Usage Client (status classification, the single
  inline 401 refresh-and-retry);
* `load_config` / `save_config` — the Profile Store;
* `get_token` / `poll` — the Poll Orchestrator (`ClaudeMenuBar._get_token`
  followed by the fetch step of `ClaudeMenuBar._refresh`).

External effects (keychain reads, refresh-exchange HTTP calls, usage GET
requests, keychain writes) are made observable: each modelled function
returns, next to its Python return value, the list of refresh-exchange
arguments it issued, the bearer tokens of the usage GETs it issued, the
number of raw credential reads it performed, and the credential blobs it
wrote to the keychain.  The environment (`Env`) fixes what the outside
world answers: the credential blob the store holds, the current time, the
refresh endpoint's answer per refresh token, and the outcome of each
usage GET in order.

Python truthiness of the values involved (`None`, `""`, `0`, `{}`) is
modelled explicitly by the `*Truthy` helpers.
-/

namespace ClaudeMonitor

/-- The nested `claudeAiOauth` JSON object of the credential blob.
Each field is `Option` because `dict.get` yields `None` when absent. -/
structure OAuthBlob where
  accessToken : Option String
  refreshToken : Option String
  expiresAt : Option Nat
  subscriptionType : Option String
deriving DecidableEq, Repr

/-- The credential blob as read from the keychain / fallback file:
the `claudeAiOauth` entry, plus whether the dict holds any other keys
(which decides the Python truthiness of the dict itself). -/
structure Creds where
  claudeAiOauth : Option OAuthBlob
  hasOtherKeys : Bool
deriving DecidableEq, Repr

/-- The `{}` default that `creds.get("claudeAiOauth", {})` produces. -/
def emptyBlob : OAuthBlob := ⟨none, none, none, none⟩

/-- Python truthiness of the creds dict: `{}` is falsy. -/
def credsTruthy (c : Creds) : Bool := c.claudeAiOauth.isSome || c.hasOtherKeys

/-- Python truthiness of an optional string: `None` and `""` are falsy. -/
def optStrTruthy : Option String → Bool
  | none => false
  | some s => !s.isEmpty

/-- Python truthiness of an optional integer: `None` and `0` are falsy. -/
def optNatTruthy : Option Nat → Bool
  | none => false
  | some n => n ≠ 0

/-- The `claudeAiOauth` entry of a creds dict, with the `{}` default:
`creds.get("claudeAiOauth", {})`. -/
def oauthOf (c : Creds) : OAuthBlob := c.claudeAiOauth.getD emptyBlob

/-- The credential merge both refresh sites perform: set `accessToken` to
the refresh endpoint's answer, overwrite `expiresAt` only when the new
expiry is truthy, and store the updated object back under
`claudeAiOauth`. -/
def mergeCreds (c : Creds) (newTok : Option String) (newExp : Option Nat) : Creds :=
  let oauth := oauthOf c
  { c with
      claudeAiOauth := some
        { oauth with
            accessToken := newTok
            expiresAt := if optNatTruthy newExp then newExp else oauth.expiresAt } }

/-- Outcome of one `requests.get` call to the usage endpoint:
either an HTTP response (whose body either parses to a JSON payload or
makes `.json()` raise with a message), or one of the exceptions the
code catches. -/
inductive HttpOutcome where
  | response (code : Nat) (body : Except String String)
  | connError
  | timeoutErr
  | otherExc (msg : String)
deriving Repr

/-- Model of `requests.Response.ok`: status code below 400. -/
def respOk (code : Nat) : Bool := code < 400

/-- The outside world as one poll observes it: the credential blob the
secret store currently answers with (`_read_raw_creds`), the current time
in epoch milliseconds, the refresh endpoint's answer as a function of the
refresh token sent (`_refresh_access_token`'s
`(access_token, expires_at)` pair, both `None` on failure), and the
outcome of the n-th usage GET issued during the call. -/
structure Env where
  creds : Option Creds
  nowMs : Nat
  refreshResult : String → Option String × Option Nat
  responses : Nat → HttpOutcome

/-- Result of `read_keychain_token`, with its effects made observable. -/
structure KeychainResult where
  token : Option String
  plan : Option String
  storeReads : Nat
  refreshArgs : List String
  writes : List Creds
deriving Repr

/-- Model of `read_keychain_token()`: read the raw credential blob; if no blob, no
nonempty dict, or no truthy access token, give `(None, None)`; if the
token is expired (`expiresAt` truthy and in the past) and a truthy
refresh token exists, exchange it once; on a truthy new access token,
merge it (and a truthy new expiry) into the blob, write the blob back,
and return the new token; otherwise return the old token and plan. -/
def read_keychain_token (env : Env) : KeychainResult :=
  match env.creds with
  | none => ⟨none, none, 1, [], []⟩
  | some creds =>
    if !credsTruthy creds then ⟨none, none, 1, [], []⟩
    else
      let oauth := oauthOf creds
      let token := oauth.accessToken
      let refresh := oauth.refreshToken
      let expires := oauth.expiresAt.getD 0
      let plan := some (oauth.subscriptionType.getD "unknown")
      if !optStrTruthy token then ⟨none, none, 1, [], []⟩
      else if expires ≠ 0 && decide (env.nowMs > expires) && optStrTruthy refresh then
        let rt := refresh.getD ""
        let r := env.refreshResult rt
        if optStrTruthy r.1 then
          ⟨r.1, plan, 1, [rt], [mergeCreds creds r.1 r.2]⟩
        else
          ⟨token, plan, 1, [rt], []⟩
      else ⟨token, plan, 1, [], []⟩

/-- The classified result of `fetch_usage`: either the parsed JSON body,
or one of the `_error` strings the code builds, tagged by kind. -/
inductive FetchOut where
  | ok (body : String)
  | authExpired
  | forbidden
  | httpStatus (code : Nat)
  | networkUnavailable
  | timeout
  | unknown (msg : String)
deriving DecidableEq, Repr

/-- Result of `fetch_usage`, with its effects made observable:
`reqTokens` records the bearer token of each usage GET issued, in order. -/
structure FetchResult where
  result : FetchOut
  reqTokens : List String
  storeReads : Nat
  refreshArgs : List String
  writes : List Creds
deriving Repr

/-- Model of `fetch_usage(token)`: one usage GET; on 401 re-read the raw
credential blob, and when it is truthy and holds a truthy refresh token,
exchange it once; on a truthy new access token merge it into the blob,
write the blob back to the keychain, and retry the GET once with the new
token, returning its body when the retry is ok; every remaining 401 path
yields the token-expired error.  403 gives forbidden; other non-ok codes
give their status; ok codes give the parsed body; exceptions anywhere in
the `try` body map to network/timeout/unknown errors, messages truncated
to 60 characters. -/
def fetch_usage (env : Env) (token : String) : FetchResult :=
  match env.responses 0 with
  | .connError => ⟨.networkUnavailable, [token], 0, [], []⟩
  | .timeoutErr => ⟨.timeout, [token], 0, [], []⟩
  | .otherExc m => ⟨.unknown (m.take 60), [token], 0, [], []⟩
  | .response code body =>
    if code = 401 then
      match env.creds with
      | none => ⟨.authExpired, [token], 1, [], []⟩
      | some creds =>
        if !credsTruthy creds then ⟨.authExpired, [token], 1, [], []⟩
        else
          let refreshTok := (oauthOf creds).refreshToken
          if !optStrTruthy refreshTok then ⟨.authExpired, [token], 1, [], []⟩
          else
            let rt := refreshTok.getD ""
            let r := env.refreshResult rt
            if !optStrTruthy r.1 then ⟨.authExpired, [token], 1, [rt], []⟩
            else
              let creds2 : Creds := mergeCreds creds r.1 r.2
              let newTok := (r.1).getD ""
              match env.responses 1 with
              | .connError => ⟨.networkUnavailable, [token, newTok], 1, [rt], [creds2]⟩
              | .timeoutErr => ⟨.timeout, [token, newTok], 1, [rt], [creds2]⟩
              | .otherExc m => ⟨.unknown (m.take 60), [token, newTok], 1, [rt], [creds2]⟩
              | .response code2 body2 =>
                if respOk code2 then
                  match body2 with
                  | .ok b => ⟨.ok b, [token, newTok], 1, [rt], [creds2]⟩
                  | .error m => ⟨.unknown (m.take 60), [token, newTok], 1, [rt], [creds2]⟩
                else ⟨.authExpired, [token, newTok], 1, [rt], [creds2]⟩
    else if code = 403 then ⟨.forbidden, [token], 0, [], []⟩
    else if !respOk code then ⟨.httpStatus code, [token], 0, [], []⟩
    else
      match body with
      | .ok b => ⟨.ok b, [token], 0, [], []⟩
      | .error m => ⟨.unknown (m.take 60), [token], 0, [], []⟩

/-! ## Profile Store -/

/-- One profile entry of `config.json`: `{ label, source, token?, plan? }`.
Each field is `Option` since `dict.get` yields `None` when absent. -/
structure ProfileCfg where
  label : Option String
  source : Option String
  token : Option String
  plan : Option String
deriving DecidableEq, Repr

/-- The parsed `config.json` document.  `profiles` is `Option` because a
hand-edited file may lack the key (`load_config` then `setdefault`s it);
the map is an association list in insertion order, as a JSON object. -/
structure Config where
  active_profile : Option String
  refresh_seconds : Option Nat
  profiles : Option (List (String × ProfileCfg))
deriving DecidableEq, Repr

/-- The `DEFAULT_REFRESH` constant. -/
def DEFAULT_REFRESH : Nat := 120

/-- The `"auto"` profile literal used by `default_config` and the
`setdefault` in `load_config`: `{label: "Auto (Keychain)", source: "keychain"}`. -/
def autoProfile : ProfileCfg := ⟨some "Auto (Keychain)", some "keychain", none, none⟩

/-- Model of `default_config()`. -/
def default_config : Config :=
  ⟨some "auto", some DEFAULT_REFRESH, some [("auto", autoProfile)]⟩

/-- Model of `dict.setdefault(k, v)` on an insertion-ordered JSON object: leave the
map alone when the key is present, else append the binding. -/
def setdefaultKey (m : List (String × ProfileCfg)) (k : String) (v : ProfileCfg) :
    List (String × ProfileCfg) :=
  if (m.lookup k).isSome then m else m ++ [(k, v)]

/-- Model of `load_config()`: the argument is the parse of the config file —
`none` when the file is missing, unreadable or unparsable (then
`default_config()` is returned).  On a parsed document, `setdefault` the
`profiles` key and the `"auto"` profile into it. -/
def load_config : Option Config → Config
  | none => default_config
  | some cfg =>
    { cfg with profiles := some (setdefaultKey (cfg.profiles.getD []) "auto" autoProfile) }

/-! ### The `save_config` file-state trace

`save_config(cfg)` runs `open(CONFIG_FILE, "w")` (which truncates the
file in place), `json.dump`, close, then `os.chmod(CONFIG_FILE, 0o600)`.
We model the config file as contents (`none` = absent) plus a permission
mode, and `save_config` as the sequence of externally observable file
states after each step, so that atomicity is a statement about the
intermediate states of the trace. -/

/-- Observable state of the config file: its contents (`none` when the
file does not exist) and its permission mode. -/
structure FileState where
  contents : Option String
  mode : Nat
deriving DecidableEq, Repr

/-- Serialization of one profile entry (models `json.dump`'s rendering of
the entry; the claims depend only on the round trip, not the exact
concrete syntax, which is fixed here as compact JSON). -/
def serializeProfile (p : ProfileCfg) : String :=
  "\x7b" ++ String.intercalate ", "
    (((p.label.map fun s => "\x22label\x22: \x22" ++ s ++ "\x22").toList) ++
     ((p.source.map fun s => "\x22source\x22: \x22" ++ s ++ "\x22").toList) ++
     ((p.token.map fun s => "\x22token\x22: \x22" ++ s ++ "\x22").toList) ++
     ((p.plan.map fun s => "\x22plan\x22: \x22" ++ s ++ "\x22").toList)) ++ "\x7d"

/-- Serialization of a config document (models `json.dump(cfg)`). -/
def serialize (cfg : Config) : String :=
  "\x7b" ++ String.intercalate ", "
    (((cfg.active_profile.map fun s => "\x22active_profile\x22: \x22" ++ s ++ "\x22").toList) ++
     ((cfg.refresh_seconds.map fun n => "\x22refresh_seconds\x22: " ++ toString n).toList) ++
     ((cfg.profiles.map fun ps => "\x22profiles\x22: \x7b" ++
        String.intercalate ", "
          (ps.map fun kv => "\x22" ++ kv.1 ++ "\x22: " ++ serializeProfile kv.2) ++
        "\x7d").toList)) ++ "\x7d"

/-- The mode the config file has right after `open(CONFIG_FILE, "w")`:
an existing file keeps its mode; a fresh file is created with the default
creation mode (0o644 under the usual umask). -/
def modeAfterOpen (old : FileState) : Nat :=
  match old.contents with
  | some _ => old.mode
  | none => 0o644

/-- Model of `save_config(cfg)` as the sequence of observable config-file states:
after the truncating `open("w")`, after `json.dump` and close, and after
`os.chmod(..., 0o600)`.  (`CONFIG_DIR.mkdir` touches only the directory.) -/
def save_config_trace (old : FileState) (cfg : Config) : List FileState :=
  [⟨some "", modeAfterOpen old⟩,
   ⟨some (serialize cfg), modeAfterOpen old⟩,
   ⟨some (serialize cfg), 0o600⟩]

/-- The file state `save_config` leaves behind when it runs to completion. -/
def save_config_final (old : FileState) (cfg : Config) : FileState :=
  (save_config_trace old cfg).getLastD old

/-- A write trace is atomic with respect to `old`/`new` contents when
every observable intermediate state shows either the old or the new
contents — a reader (or a crash) never exposes anything else. -/
def AtomicTrace (old new : Option String) (trace : List FileState) : Prop :=
  ∀ s ∈ trace, s.contents = old ∨ s.contents = new

/-! ## Poll Orchestrator -/

/-- The name `self.active` as `ClaudeMenuBar.__init__` derives it:
`config.get("active_profile", "auto")`. -/
def activeName (cfg : Config) : String := cfg.active_profile.getD "auto"

/-- Result of `ClaudeMenuBar._get_token`, with effects observable.
`usedKeychain` records whether `read_keychain_token` (the Token Service)
was invoked. -/
structure GetTokenResult where
  token : Option String
  plan : Option String
  usedKeychain : Bool
  storeReads : Nat
  refreshArgs : List String
  writes : List Creds
deriving Repr

/-- Model of `ClaudeMenuBar._get_token()`: look the active name up in
`config["profiles"]` (missing name gives `{}`); when the profile's
`source` is `"keychain"`, delegate to `read_keychain_token`; otherwise
return the profile's stored `token` and `plan` (default `"?"`) directly. -/
def get_token (env : Env) (profiles : List (String × ProfileCfg)) (active : String) :
    GetTokenResult :=
  let profile := (profiles.lookup active).getD ⟨none, none, none, none⟩
  if profile.source = some "keychain" then
    let r := read_keychain_token env
    ⟨r.token, r.plan, true, r.storeReads, r.refreshArgs, r.writes⟩
  else
    ⟨profile.token, some (profile.plan.getD "?"), false, 0, [], []⟩

/-- What one poll reports: the no-token branch, a usage payload, or the
error `fetch_usage` classified. -/
inductive PollResult where
  | noCredential
  | usage (body : String) (plan : Option String)
  | pollError (e : FetchOut)
deriving DecidableEq, Repr

/-- Result of one poll, with the combined effects of token resolution and
usage fetching. -/
structure PollOutcome where
  result : PollResult
  usedKeychain : Bool
  reqTokens : List String
  storeReads : Nat
  refreshArgs : List String
  writes : List Creds
deriving Repr

/-- One poll (`ClaudeMenuBar._refresh` up to status rendering): resolve a
token via `_get_token`; a falsy token reports the no-credential branch
and issues no request; otherwise call `fetch_usage` with it and report
its classification. -/
def poll (env : Env) (profiles : List (String × ProfileCfg)) (active : String) :
    PollOutcome :=
  let g := get_token env profiles active
  if !optStrTruthy g.token then
    ⟨.noCredential, g.usedKeychain, [], g.storeReads, g.refreshArgs, g.writes⟩
  else
    let f := fetch_usage env (g.token.getD "")
    let res := match f.result with
      | .ok b => PollResult.usage b g.plan
      | e => PollResult.pollError e
    ⟨res, g.usedKeychain, f.reqTokens, g.storeReads + f.storeReads,
      g.refreshArgs ++ f.refreshArgs, g.writes ++ f.writes⟩

/-! ## Concrete data used by witnesses and counterexamples -/

/-- A stored credential: expired token with a usable refresh token. -/
def blobExpired : OAuthBlob := ⟨some "oldtok", some "rtok", some 500, some "pro"⟩

/-- The creds dict wrapping `blobExpired`. -/
def credsExpired : Creds := ⟨some blobExpired, false⟩

/-- A stored credential with no expiry timestamp. -/
def blobNoExpiry : OAuthBlob := ⟨some "oldtok", some "rtok", none, some "pro"⟩

/-- The creds dict wrapping `blobNoExpiry`. -/
def credsNoExpiry : Creds := ⟨some blobNoExpiry, false⟩

/-- An environment where the stored credential is expired, the refresh
endpoint answers with a fresh token, the first usage GET yields 401 and
the second yields 200 with body `"BODY"`. -/
def envRefreshOk : Env :=
  { creds := some credsExpired
    nowMs := 1000
    refreshResult := fun _ => (some "newtok", some 2000)
    responses := fun n =>
      if n = 0 then .response 401 (.error "err") else .response 200 (.ok "BODY") }

/-- Like `envRefreshOk` but the refresh endpoint fails. -/
def envRefreshFail : Env :=
  { envRefreshOk with refreshResult := fun _ => (none, none) }

/-- Like `envRefreshOk` but the store holds the credential without an
expiry timestamp. -/
def envNoExpiry : Env := { envRefreshOk with creds := some credsNoExpiry }

/-- Like `envRefreshOk` but the store holds a blob whose `claudeAiOauth`
entry lacks an access token. -/
def envNoToken : Env :=
  { envRefreshOk with creds := some ⟨some ⟨none, some "rtok", some 500, some "pro"⟩, false⟩ }

/-! ## Claims about the Token Service (`read_keychain_token`) -/

/-- C10: a stored blob without an access token (no `claudeAiOauth` entry,
or an absent or empty `accessToken`) makes the Token Service return
`(None, None)` — plan and refresh token discarded, no refresh exchange,
no keychain write. -/
theorem token_service_no_access_token (env : Env) (c : Creds)
    (hc : env.creds = some c)
    (h : c.claudeAiOauth = none ∨ (oauthOf c).accessToken = none ∨
      (oauthOf c).accessToken = some "") :
    read_keychain_token env = ⟨none, none, 1, [], []⟩ := by
  have htok : optStrTruthy (oauthOf c).accessToken = false := by
    rcases h with h | h | h
    · simp [oauthOf, h, emptyBlob, optStrTruthy]
    · simp [h, optStrTruthy]
    · rw [h]; decide
  by_cases ht : credsTruthy c
  · simp [read_keychain_token, hc, ht, htok]
  · simp [read_keychain_token, hc, ht]

/-- Witness for `token_service_no_access_token` at `envNoToken`. -/
theorem token_service_no_access_token_witness :
    read_keychain_token envNoToken = ⟨none, none, 1, [], []⟩ :=
  token_service_no_access_token envNoToken ⟨some ⟨none, some "rtok", some 500, some "pro"⟩, false⟩
    rfl (Or.inr (Or.inl rfl))

/-- C6: a credential with a truthy access token and no `expiresAt` field
is treated as not expired: no refresh exchange, no write, and the stored
token and plan are returned as-is. -/
theorem token_service_no_expiry_no_refresh (env : Env) (c : Creds)
    (hc : env.creds = some c) (ht : credsTruthy c = true)
    (htok : optStrTruthy (oauthOf c).accessToken = true)
    (hexp : (oauthOf c).expiresAt = none) :
    read_keychain_token env =
      ⟨(oauthOf c).accessToken, some ((oauthOf c).subscriptionType.getD "unknown"),
        1, [], []⟩ := by
  simp [read_keychain_token, hc, ht, htok, hexp]

/-- Witness for `token_service_no_expiry_no_refresh` at `envNoExpiry`. -/
theorem token_service_no_expiry_no_refresh_witness :
    read_keychain_token envNoExpiry = ⟨some "oldtok", some "pro", 1, [], []⟩ :=
  token_service_no_expiry_no_refresh envNoExpiry credsNoExpiry rfl rfl rfl rfl

/-- C5: for an expired credential (expiry present and in the past, access
token truthy), when no truthy refresh token exists or the refresh
exchange fails, the Token Service returns the old access token and the
stored plan unchanged, and writes nothing to the keychain. -/
theorem token_service_refresh_failure_returns_old (env : Env) (c : Creds)
    (hc : env.creds = some c) (ht : credsTruthy c = true)
    (htok : optStrTruthy (oauthOf c).accessToken = true)
    (e : Nat) (hexp : (oauthOf c).expiresAt = some e) (hpast : e < env.nowMs)
    (hfail : optStrTruthy (oauthOf c).refreshToken = false ∨
      optStrTruthy (env.refreshResult ((oauthOf c).refreshToken.getD "")).1 = false) :
    (read_keychain_token env).token = (oauthOf c).accessToken ∧
    (read_keychain_token env).plan = some ((oauthOf c).subscriptionType.getD "unknown") ∧
    (read_keychain_token env).writes = [] := by
  by_cases he : e = 0
  · subst he
    simp [read_keychain_token, hc, ht, htok, hexp]
  · rcases hfail with hf | hf
    · simp [read_keychain_token, hc, ht, htok, hexp, he, hpast, hf]
    · by_cases hr : optStrTruthy (oauthOf c).refreshToken
      · simp [read_keychain_token, hc, ht, htok, hexp, he, hpast, hr, hf]
      · simp [read_keychain_token, hc, ht, htok, hexp, he, hpast, hr]

/-- Witness for `token_service_refresh_failure_returns_old` at
`envRefreshFail`. -/
theorem token_service_refresh_failure_returns_old_witness :
    (read_keychain_token envRefreshFail).token = some "oldtok" ∧
    (read_keychain_token envRefreshFail).plan = some "pro" ∧
    (read_keychain_token envRefreshFail).writes = [] :=
  token_service_refresh_failure_returns_old envRefreshFail credsExpired rfl rfl rfl
    500 rfl (by decide) (Or.inr rfl)

/-- A stored credential whose `expiresAt` is present with value `0`. -/
def credsZeroExpiry : Creds := ⟨some ⟨some "oldtok", some "rtok", some 0, some "pro"⟩, false⟩

/-- Like `envRefreshOk` but the store holds `credsZeroExpiry`. -/
def envZeroExpiry : Env := { envRefreshOk with creds := some credsZeroExpiry }

/-- C4 counterexample: a credential whose `expiresAt` is present (`0`)
and in the past (now is `1000`), with a truthy refresh token, yet the
Token Service performs zero refresh exchanges and returns the old token
— the code's `if expires and ...` treats a zero expiry as absent. -/
theorem token_service_zero_expiry_counterexample :
    (oauthOf credsZeroExpiry).expiresAt = some 0 ∧
    envZeroExpiry.nowMs > 0 ∧
    optStrTruthy (oauthOf credsZeroExpiry).refreshToken = true ∧
    optStrTruthy (oauthOf credsZeroExpiry).accessToken = true ∧
    (read_keychain_token envZeroExpiry).refreshArgs = [] ∧
    (read_keychain_token envZeroExpiry).writes = [] ∧
    (read_keychain_token envZeroExpiry).token = some "oldtok" := by
  refine ⟨rfl, by decide, rfl, rfl, by decide, by decide, by decide⟩

/-- C4 (amended): for a credential with a truthy access token whose
`expiresAt` is present, nonzero, and in the past, and whose refresh token
is truthy, `read_keychain_token` performs exactly one refresh exchange,
with the stored refresh token; and when the exchange yields a truthy new
access token, that token is returned, and the credential merged via
`mergeCreds` (new expiry only when truthy) is written to the keychain. -/
theorem token_service_expired_refreshes_once (env : Env) (c : Creds)
    (hc : env.creds = some c) (ht : credsTruthy c = true)
    (htok : optStrTruthy (oauthOf c).accessToken = true)
    (e : Nat) (hexp : (oauthOf c).expiresAt = some e) (he : e ≠ 0)
    (hpast : e < env.nowMs)
    (hr : optStrTruthy (oauthOf c).refreshToken = true) :
    (read_keychain_token env).refreshArgs = [(oauthOf c).refreshToken.getD ""] ∧
    (optStrTruthy (env.refreshResult ((oauthOf c).refreshToken.getD "")).1 = true →
      (read_keychain_token env).token =
        (env.refreshResult ((oauthOf c).refreshToken.getD "")).1 ∧
      (read_keychain_token env).plan =
        some ((oauthOf c).subscriptionType.getD "unknown") ∧
      (read_keychain_token env).writes =
        [mergeCreds c (env.refreshResult ((oauthOf c).refreshToken.getD "")).1
          (env.refreshResult ((oauthOf c).refreshToken.getD "")).2]) := by
  by_cases hs :
      optStrTruthy (env.refreshResult ((oauthOf c).refreshToken.getD "")).1 = true
  · simp [read_keychain_token, hc, ht, htok, hexp, he, hpast, hr, hs]
  · simp [read_keychain_token, hc, ht, htok, hexp, he, hpast, hr, hs]

/-- Witness for `token_service_expired_refreshes_once` at `envRefreshOk`:
the exchange runs once with `"rtok"` and the new token is returned. -/
theorem token_service_expired_refreshes_once_witness :
    (read_keychain_token envRefreshOk).refreshArgs = ["rtok"] ∧
    (read_keychain_token envRefreshOk).token = some "newtok" ∧
    (read_keychain_token envRefreshOk).writes =
      [mergeCreds credsExpired (some "newtok") (some 2000)] := by
  have h := token_service_expired_refreshes_once envRefreshOk credsExpired rfl rfl rfl
    500 rfl (by decide) (by decide) rfl
  exact ⟨h.1, (h.2 rfl).1, (h.2 rfl).2.2⟩

/-! ## Claims about the Profile Store -/

/-- C7: parsing the document written by `save_config` back (`json.dump`
then `json.load` round-trips a JSON document) and running `load_config`
on it yields the saved state, except that a profiles map lacking an
`"auto"` entry comes back extended with the default delegated (source
`"keychain"`) `"auto"` profile. -/
theorem profile_store_round_trip (cfg : Config) (ps : List (String × ProfileCfg))
    (h : cfg.profiles = some ps) :
    load_config (some cfg) =
      if (ps.lookup "auto").isSome then cfg
      else { cfg with profiles := some (ps ++ [("auto", autoProfile)]) } := by
  obtain ⟨a, r, p⟩ := cfg
  have hp : p = some ps := h
  subst hp
  by_cases hl : (ps.lookup "auto").isSome
  · simp [load_config, setdefaultKey, hl]
  · simp [load_config, setdefaultKey, hl]

/-- Sample config used by the round-trip witness: one pinned profile and
no `"auto"` entry. -/
def cfgSample : Config :=
  ⟨some "work", some 60, some [("work", ⟨some "Work", some "token", some "t", some "max"⟩)]⟩

/-- Witness for `profile_store_round_trip` at `cfgSample`: the `"auto"`
profile is injected behind the existing entry. -/
theorem profile_store_round_trip_witness :
    load_config (some cfgSample) =
      { cfgSample with
          profiles := some [("work", ⟨some "Work", some "token", some "t", some "max"⟩),
            ("auto", autoProfile)] } := by
  have h := profile_store_round_trip cfgSample
    [("work", ⟨some "Work", some "token", some "t", some "max"⟩)] rfl
  simpa using h

/-- The pre-save config file used by the atomicity counterexample. -/
def oldFile : FileState := ⟨some "OLD", 0o600⟩

/-- C8 counterexample: `save_config` is not an atomic rewrite — the
truncating `open("w")` exposes an empty file as the first observable
state of the trace, which shows neither the old nor the new contents, so
a reader can observe a partially written file and the previous contents
do not survive a write that fails after the open. -/
theorem save_config_not_atomic_counterexample :
    (save_config_trace oldFile default_config).head? =
      some ⟨some "", 0o600⟩ ∧
    ¬ AtomicTrace (some "OLD") (some (serialize default_config))
        (save_config_trace oldFile default_config) := by
  constructor
  · rfl
  · intro hA
    have hmem : (⟨some "", 0o600⟩ : FileState) ∈
        save_config_trace oldFile default_config := by
      simp [save_config_trace, oldFile, modeAfterOpen]
    rcases hA _ hmem with h | h
    · exact absurd h (by decide)
    · exact absurd h (by decide)

/-- C8 (amended): `save_config` rewrites the whole config file by
truncating it in place and writing the serialized state — not
atomically: the trace contains the truncated empty state, so a
concurrent reader can observe a partial file and a failure after the
open loses the previous contents — and it finally leaves the file
holding the serialized config with owner-only permissions `0o600`. -/
theorem save_config_rewrite_and_mode (old : FileState) (cfg : Config) :
    save_config_final old cfg = ⟨some (serialize cfg), 0o600⟩ ∧
    (⟨some "", modeAfterOpen old⟩ : FileState) ∈ save_config_trace old cfg := by
  exact ⟨rfl, by simp [save_config_trace]⟩

/-! ## Claims about the Usage Client (`fetch_usage`) -/

/-- When the first usage GET does not come back with status 401, `fetch`
issues exactly one request and touches neither the secret store, nor the
refresh endpoint, nor the keychain. -/
theorem fetch_usage_non401 (env : Env) (token : String)
    (h : ∀ body, env.responses 0 ≠ HttpOutcome.response 401 body) :
    (fetch_usage env token).reqTokens = [token] ∧
    (fetch_usage env token).storeReads = 0 ∧
    (fetch_usage env token).refreshArgs = [] ∧
    (fetch_usage env token).writes = [] := by
  cases h0 : env.responses 0 with
  | connError => simp [fetch_usage, h0]
  | timeoutErr => simp [fetch_usage, h0]
  | otherExc m => simp [fetch_usage, h0]
  | response code body =>
    have h401 : code ≠ 401 := fun hc => h body (hc ▸ h0)
    by_cases h403 : code = 403
    · simp [fetch_usage, h0, h401, h403]
    · by_cases hok : respOk code = true
      · cases body <;> simp [fetch_usage, h0, h401, h403, hok]
      · simp [fetch_usage, h0, h401, h403, hok]

/-- Shape of the usage GETs one `fetch` call issues: either exactly one
request with the given bearer token, or — the first response having been
a 401 — exactly two, the second with some other token. -/
theorem fetch_usage_retry_shape (env : Env) (token : String) :
    (fetch_usage env token).reqTokens = [token] ∨
    ((∃ body, env.responses 0 = HttpOutcome.response 401 body) ∧
      ∃ nt, (fetch_usage env token).reqTokens = [token, nt]) := by
  cases h0 : env.responses 0 with
  | connError => exact Or.inl (by simp [fetch_usage, h0])
  | timeoutErr => exact Or.inl (by simp [fetch_usage, h0])
  | otherExc m => exact Or.inl (by simp [fetch_usage, h0])
  | response code body =>
    by_cases h401 : code = 401
    · subst h401
      cases hcr : env.creds with
      | none => exact Or.inl (by simp [fetch_usage, h0, hcr])
      | some c =>
        cases ht : credsTruthy c with
        | false => exact Or.inl (by simp [fetch_usage, h0, hcr, ht])
        | true =>
          cases hr : optStrTruthy (oauthOf c).refreshToken with
          | false => exact Or.inl (by simp [fetch_usage, h0, hcr, ht, hr])
          | true =>
            cases hs :
                optStrTruthy (env.refreshResult ((oauthOf c).refreshToken.getD "")).1 with
            | false => exact Or.inl (by simp [fetch_usage, h0, hcr, ht, hr, hs])
            | true =>
              refine Or.inr ⟨⟨body, rfl⟩,
                ⟨((env.refreshResult ((oauthOf c).refreshToken.getD "")).1).getD "", ?_⟩⟩
              cases h1 : env.responses 1 with
              | response c2 b2 =>
                by_cases hok : respOk c2 = true
                · cases b2 <;> simp [fetch_usage, h0, hcr, ht, hr, hs, h1, hok]
                · simp [fetch_usage, h0, hcr, ht, hr, hs, h1, hok]
              | connError => simp [fetch_usage, h0, hcr, ht, hr, hs, h1]
              | timeoutErr => simp [fetch_usage, h0, hcr, ht, hr, hs, h1]
              | otherExc m => simp [fetch_usage, h0, hcr, ht, hr, hs, h1]
    · have h : ∀ b, env.responses 0 ≠ HttpOutcome.response 401 b := by
        intro b hb
        rw [h0] at hb
        injection hb with hcode _
        exact h401 hcode
      exact Or.inl (fetch_usage_non401 env token h).1

/-- C2: one `fetch_usage` call issues at most two usage GET requests;
a second request happens only when the first came back 401, and on any
non-401 first outcome exactly one request is issued. -/
theorem usage_client_single_retry (env : Env) (token : String) :
    (fetch_usage env token).reqTokens.length ≤ 2 ∧
    ((fetch_usage env token).reqTokens.length = 2 →
      ∃ body, env.responses 0 = HttpOutcome.response 401 body) ∧
    ((∀ body, env.responses 0 ≠ HttpOutcome.response 401 body) →
      (fetch_usage env token).reqTokens.length = 1) := by
  rcases fetch_usage_retry_shape env token with h | ⟨⟨body, hb⟩, nt, hnt⟩
  · refine ⟨by simp [h], ?_, fun _ => by simp [h]⟩
    intro h2
    rw [h] at h2
    simp at h2
  · exact ⟨by simp [hnt], fun _ => ⟨body, hb⟩, fun hno => absurd hb (hno body)⟩

/-- Witness for `usage_client_single_retry` at `envRefreshOk`. -/
theorem usage_client_single_retry_witness :
    (fetch_usage envRefreshOk "tok").reqTokens.length ≤ 2 ∧
    ((fetch_usage envRefreshOk "tok").reqTokens.length = 2 →
      ∃ body, envRefreshOk.responses 0 = HttpOutcome.response 401 body) ∧
    ((∀ body, envRefreshOk.responses 0 ≠ HttpOutcome.response 401 body) →
      (fetch_usage envRefreshOk "tok").reqTokens.length = 1) :=
  usage_client_single_retry envRefreshOk "tok"

/-- Like `envRefreshOk` but the retried usage GET times out. -/
def envRetryTimeout : Env :=
  { envRefreshOk with
      responses := fun n =>
        if n = 0 then .response 401 (.error "err") else .timeoutErr }

/-- C3 counterexample: first GET 401, store credential and refresh token
present, refresh exchange succeeds, and the single retry times out — the
call returns the Timeout error, not AuthExpired as the claim demands for
a retry that does not succeed. -/
theorem fetch_retry_timeout_counterexample :
    envRetryTimeout.responses 0 = HttpOutcome.response 401 (Except.error "err") ∧
    (fetch_usage envRetryTimeout "tok").reqTokens = ["tok", "newtok"] ∧
    (fetch_usage envRetryTimeout "tok").result = FetchOut.timeout ∧
    (fetch_usage envRetryTimeout "tok").result ≠ FetchOut.authExpired := by
  refine ⟨rfl, by decide, by decide, by decide⟩

/-- C3 (amended): on a first 401 `fetch_usage` re-reads the raw
credential from the store (one store read; the refresh token used is the
one found there, not an in-memory one); with no credential, a falsy
credential dict, or no truthy refresh token it returns AuthExpired with
no exchange and no write; with a truthy refresh token it runs exactly one
exchange — on a falsy exchange result AuthExpired with no write, on a
truthy new token it writes the merged credential to the keychain and
retries the GET exactly once with the new token, where a non-ok retry
status yields AuthExpired, an ok retry yields its parsed body, and a
connection error, timeout or other exception during the retry yields
NetworkUnavailable, Timeout or Unknown respectively. -/
theorem fetch_usage_401_behavior (env : Env) (token : String)
    (body : Except String String)
    (h0 : env.responses 0 = HttpOutcome.response 401 body) :
    (fetch_usage env token).storeReads = 1 ∧
    (env.creds = none →
      (fetch_usage env token).result = FetchOut.authExpired ∧
      (fetch_usage env token).refreshArgs = [] ∧
      (fetch_usage env token).writes = []) ∧
    (∀ c, env.creds = some c → credsTruthy c = false →
      (fetch_usage env token).result = FetchOut.authExpired ∧
      (fetch_usage env token).refreshArgs = [] ∧
      (fetch_usage env token).writes = []) ∧
    (∀ c, env.creds = some c → credsTruthy c = true →
      optStrTruthy (oauthOf c).refreshToken = false →
      (fetch_usage env token).result = FetchOut.authExpired ∧
      (fetch_usage env token).refreshArgs = [] ∧
      (fetch_usage env token).writes = []) ∧
    (∀ c, env.creds = some c → credsTruthy c = true →
      optStrTruthy (oauthOf c).refreshToken = true →
      (fetch_usage env token).refreshArgs = [(oauthOf c).refreshToken.getD ""] ∧
      (optStrTruthy (env.refreshResult ((oauthOf c).refreshToken.getD "")).1 = false →
        (fetch_usage env token).result = FetchOut.authExpired ∧
        (fetch_usage env token).writes = []) ∧
      (optStrTruthy (env.refreshResult ((oauthOf c).refreshToken.getD "")).1 = true →
        (fetch_usage env token).writes =
          [mergeCreds c (env.refreshResult ((oauthOf c).refreshToken.getD "")).1
            (env.refreshResult ((oauthOf c).refreshToken.getD "")).2] ∧
        (fetch_usage env token).reqTokens =
          [token, ((env.refreshResult ((oauthOf c).refreshToken.getD "")).1).getD ""] ∧
        (∀ c2 b2, env.responses 1 = HttpOutcome.response c2 b2 → respOk c2 = false →
          (fetch_usage env token).result = FetchOut.authExpired) ∧
        (∀ c2 b, env.responses 1 = HttpOutcome.response c2 (Except.ok b) →
          respOk c2 = true → (fetch_usage env token).result = FetchOut.ok b) ∧
        (∀ c2 m, env.responses 1 = HttpOutcome.response c2 (Except.error m) →
          respOk c2 = true →
          (fetch_usage env token).result = FetchOut.unknown (m.take 60)) ∧
        (env.responses 1 = HttpOutcome.connError →
          (fetch_usage env token).result = FetchOut.networkUnavailable) ∧
        (env.responses 1 = HttpOutcome.timeoutErr →
          (fetch_usage env token).result = FetchOut.timeout) ∧
        (∀ m, env.responses 1 = HttpOutcome.otherExc m →
          (fetch_usage env token).result = FetchOut.unknown (m.take 60)))) := by
  refine ⟨?_, ?_, ?_, ?_, ?_⟩
  · cases hcr : env.creds with
    | none => simp [fetch_usage, h0, hcr]
    | some c =>
      cases ht : credsTruthy c with
      | false => simp [fetch_usage, h0, hcr, ht]
      | true =>
        cases hr : optStrTruthy (oauthOf c).refreshToken with
        | false => simp [fetch_usage, h0, hcr, ht, hr]
        | true =>
          cases hs :
              optStrTruthy (env.refreshResult ((oauthOf c).refreshToken.getD "")).1 with
          | false => simp [fetch_usage, h0, hcr, ht, hr, hs]
          | true =>
            cases h1 : env.responses 1 with
            | response c2 b2 =>
              by_cases hok : respOk c2 = true
              · cases b2 <;> simp [fetch_usage, h0, hcr, ht, hr, hs, h1, hok]
              · simp [fetch_usage, h0, hcr, ht, hr, hs, h1, hok]
            | connError => simp [fetch_usage, h0, hcr, ht, hr, hs, h1]
            | timeoutErr => simp [fetch_usage, h0, hcr, ht, hr, hs, h1]
            | otherExc m => simp [fetch_usage, h0, hcr, ht, hr, hs, h1]
  · intro hcr
    simp [fetch_usage, h0, hcr]
  · intro c hcr ht
    simp [fetch_usage, h0, hcr, ht]
  · intro c hcr ht hr
    simp [fetch_usage, h0, hcr, ht, hr]
  · intro c hcr ht hr
    refine ⟨?_, ?_, ?_⟩
    · cases hs :
          optStrTruthy (env.refreshResult ((oauthOf c).refreshToken.getD "")).1 with
      | false => simp [fetch_usage, h0, hcr, ht, hr, hs]
      | true =>
        cases h1 : env.responses 1 with
        | response c2 b2 =>
          by_cases hok : respOk c2 = true
          · cases b2 <;> simp [fetch_usage, h0, hcr, ht, hr, hs, h1, hok]
          · simp [fetch_usage, h0, hcr, ht, hr, hs, h1, hok]
        | connError => simp [fetch_usage, h0, hcr, ht, hr, hs, h1]
        | timeoutErr => simp [fetch_usage, h0, hcr, ht, hr, hs, h1]
        | otherExc m => simp [fetch_usage, h0, hcr, ht, hr, hs, h1]
    · intro hs
      simp [fetch_usage, h0, hcr, ht, hr, hs]
    · intro hs
      refine ⟨?_, ?_, ?_, ?_, ?_, ?_, ?_, ?_⟩
      · cases h1 : env.responses 1 with
        | response c2 b2 =>
          by_cases hok : respOk c2 = true
          · cases b2 <;> simp [fetch_usage, h0, hcr, ht, hr, hs, h1, hok]
          · simp [fetch_usage, h0, hcr, ht, hr, hs, h1, hok]
        | connError => simp [fetch_usage, h0, hcr, ht, hr, hs, h1]
        | timeoutErr => simp [fetch_usage, h0, hcr, ht, hr, hs, h1]
        | otherExc m => simp [fetch_usage, h0, hcr, ht, hr, hs, h1]
      · cases h1 : env.responses 1 with
        | response c2 b2 =>
          by_cases hok : respOk c2 = true
          · cases b2 <;> simp [fetch_usage, h0, hcr, ht, hr, hs, h1, hok]
          · simp [fetch_usage, h0, hcr, ht, hr, hs, h1, hok]
        | connError => simp [fetch_usage, h0, hcr, ht, hr, hs, h1]
        | timeoutErr => simp [fetch_usage, h0, hcr, ht, hr, hs, h1]
        | otherExc m => simp [fetch_usage, h0, hcr, ht, hr, hs, h1]
      · intro c2 b2 h1 hok
        simp [fetch_usage, h0, hcr, ht, hr, hs, h1, hok]
      · intro c2 b h1 hok
        simp [fetch_usage, h0, hcr, ht, hr, hs, h1, hok]
      · intro c2 m h1 hok
        simp [fetch_usage, h0, hcr, ht, hr, hs, h1, hok]
      · intro h1
        simp [fetch_usage, h0, hcr, ht, hr, hs, h1]
      · intro h1
        simp [fetch_usage, h0, hcr, ht, hr, hs, h1]
      · intro m h1
        simp [fetch_usage, h0, hcr, ht, hr, hs, h1]

/-- Witness for `fetch_usage_401_behavior` at `envRefreshOk`: the store
is re-read once, the exchange runs with the stored refresh token, the
merged credential is written back, and the retry with the new token
succeeds. -/
theorem fetch_usage_401_behavior_witness :
    (fetch_usage envRefreshOk "tok").storeReads = 1 ∧
    (fetch_usage envRefreshOk "tok").refreshArgs = ["rtok"] ∧
    (fetch_usage envRefreshOk "tok").writes =
      [mergeCreds credsExpired (some "newtok") (some 2000)] ∧
    (fetch_usage envRefreshOk "tok").reqTokens = ["tok", "newtok"] ∧
    (fetch_usage envRefreshOk "tok").result = FetchOut.ok "BODY" := by
  have h := fetch_usage_401_behavior envRefreshOk "tok" (Except.error "err") rfl
  obtain ⟨hread, -, -, -, hE⟩ := h
  obtain ⟨hargs, -, hsucc⟩ := hE credsExpired rfl rfl rfl
  obtain ⟨hw, hreq, -, hok, -⟩ := hsucc rfl
  exact ⟨hread, hargs, hw, hreq, hok 200 "BODY" rfl rfl⟩

/-! ## Claims about the Poll Orchestrator -/

/-- Profiles map with the delegated `"auto"` profile and one pinned
(source `"token"`) profile holding a snapshot token. -/
def pinnedProfiles : List (String × ProfileCfg) :=
  [("auto", autoProfile), ("work", ⟨some "Work", some "token", some "ptok", some "max"⟩)]

/-- C1 counterexample: with the active profile pinned (`source =
"token"`), one poll against a usage endpoint answering 401 first does
issue a refresh exchange with the keychain credential's refresh token and
does write the refreshed credential to the keychain — the 401 path of
`fetch_usage` is profile-agnostic — even though `read_keychain_token`
itself is never invoked. -/
theorem pinned_poll_store_write_counterexample :
    (pinnedProfiles.lookup "work").map (fun p => p.source) = some (some "token") ∧
    (poll envRefreshOk pinnedProfiles "work").usedKeychain = false ∧
    (poll envRefreshOk pinnedProfiles "work").refreshArgs = ["rtok"] ∧
    (poll envRefreshOk pinnedProfiles "work").writes ≠ [] := by
  refine ⟨rfl, rfl, by decide, by decide⟩

/-- C1 (amended): a poll whose active profile is pinned never invokes the
Token Service (`read_keychain_token`); and whenever the first usage GET
does not come back 401, it performs no refresh exchange, no raw store
read, and no keychain write.  (On a 401, `fetch_usage` itself may refresh
and write the store credential.) -/
theorem pinned_poll_isolation (env : Env) (profiles : List (String × ProfileCfg))
    (active : String) (p : ProfileCfg)
    (hp : profiles.lookup active = some p) (hsrc : p.source = some "token") :
    (poll env profiles active).usedKeychain = false ∧
    ((∀ body, env.responses 0 ≠ HttpOutcome.response 401 body) →
      (poll env profiles active).refreshArgs = [] ∧
      (poll env profiles active).writes = [] ∧
      (poll env profiles active).storeReads = 0) := by
  have hsrc' : ¬ p.source = some "keychain" := by
    rw [hsrc]
    simp
  have hg : get_token env profiles active =
      ⟨p.token, some (p.plan.getD "?"), false, 0, [], []⟩ := by
    simp [get_token, hp, hsrc']
  by_cases htk : optStrTruthy p.token = true
  · constructor
    · simp [poll, hg, htk]
    · intro h
      obtain ⟨-, -, hra, hw⟩ := fetch_usage_non401 env (p.token.getD "") h
      simp [poll, hg, htk, hra, hw,
        (fetch_usage_non401 env (p.token.getD "") h).2.1]
  · constructor
    · simp [poll, hg, htk]
    · intro _
      simp [poll, hg, htk]

/-- Environment whose usage endpoint always answers 200. -/
def env200 : Env :=
  { envRefreshOk with responses := fun _ => .response 200 (.ok "BODY") }

/-- Witness for `pinned_poll_isolation`: a pinned-profile poll against a
200-answering endpoint uses no keychain, no refresh, no store write. -/
theorem pinned_poll_isolation_witness :
    (poll env200 pinnedProfiles "work").usedKeychain = false ∧
    (poll env200 pinnedProfiles "work").refreshArgs = [] ∧
    (poll env200 pinnedProfiles "work").writes = [] ∧
    (poll env200 pinnedProfiles "work").storeReads = 0 := by
  have h := pinned_poll_isolation env200 pinnedProfiles "work"
    ⟨some "Work", some "token", some "ptok", some "max"⟩ rfl rfl
  have h2 := h.2 (fun body hb => by
    have h200 : env200.responses 0 = HttpOutcome.response 200 (Except.ok "BODY") := rfl
    rw [h200] at hb
    injection hb with hcode _
    exact absurd hcode (by decide))
  exact ⟨h.1, h2.1, h2.2.1, h2.2.2⟩

/-- A store credential that is fresh (no expiry, no refresh needed). -/
def envPlainToken : Env :=
  { envRefreshOk with creds := some ⟨some ⟨some "oldtok", none, none, some "pro"⟩, false⟩ }

/-- Profiles map holding only the `"auto"` profile. -/
def soloAutoProfiles : List (String × ProfileCfg) := [("auto", autoProfile)]

/-- C9 counterexample: the active profile name `"ghost"` references no
existing profile while `"auto"` exists and would resolve a token via the
keychain — yet the poll reports the no-credential branch without ever
invoking the Token Service: `_get_token` treats the dangling name as an
empty profile instead of falling back to `"auto"`. -/
theorem active_dangling_counterexample :
    soloAutoProfiles.lookup "ghost" = none ∧
    (soloAutoProfiles.lookup "auto").isSome = true ∧
    (get_token envPlainToken soloAutoProfiles "auto").token = some "oldtok" ∧
    (poll envPlainToken soloAutoProfiles "ghost").result = PollResult.noCredential ∧
    (poll envPlainToken soloAutoProfiles "ghost").usedKeychain = false := by
  refine ⟨rfl, rfl, by decide, by decide, rfl⟩

/-- C9 (amended): only a missing `active_profile` key falls back to
`"auto"` (at `__init__` time, via `config.get`); an `active_profile`
naming a nonexistent profile is resolved as an empty profile, so the poll
yields no token and reports the no-credential branch without invoking the
Token Service. -/
theorem active_profile_resolution (cfg : Config) (env : Env)
    (ps : List (String × ProfileCfg)) (name : String) :
    (cfg.active_profile = none → activeName cfg = "auto") ∧
    (ps.lookup name = none →
      (get_token env ps name).token = none ∧
      (get_token env ps name).usedKeychain = false ∧
      (poll env ps name).result = PollResult.noCredential) := by
  constructor
  · intro h
    simp [activeName, h]
  · intro h
    have hg : get_token env ps name = ⟨none, some "?", false, 0, [], []⟩ := by
      simp [get_token, h]
    exact ⟨by rw [hg], by rw [hg], by simp [poll, hg, optStrTruthy]⟩

/-- Witness for `active_profile_resolution`: a config without the
`active_profile` key resolves to `"auto"`, and the dangling name
`"ghost"` resolves no token and polls to the no-credential branch. -/
theorem active_profile_resolution_witness :
    activeName ⟨none, some 120, some soloAutoProfiles⟩ = "auto" ∧
    (get_token envPlainToken soloAutoProfiles "ghost").token = none ∧
    (poll envPlainToken soloAutoProfiles "ghost").result = PollResult.noCredential := by
  have h := active_profile_resolution ⟨none, some 120, some soloAutoProfiles⟩
    envPlainToken soloAutoProfiles "ghost"
  exact ⟨h.1 rfl, (h.2 rfl).1, (h.2 rfl).2.2⟩

end ClaudeMonitor
